import Mathlib

/-!
Verification of the rendering core of the crypto-wallet-visualizer
repository, shallowly embedded in Lean 4 over the real numbers.

The embedding follows the TypeScript sources:
- `src/canvas/planets.ts` : `projectOrbitPoint`, `createPlanets`, `drawPlanets`
- `src/canvas/orbits.ts`  : `drawOrbits` (ring dedup keyed by radius+plane)
- `src/canvas/ships.ts`   : `createShips`, `updateShips`, `reassociateShips`
- `src/canvas/renderer.ts`: hit-testing, wheel zoom
- `src/api/goldrush.ts`   : `buildInteractions`

JavaScript numbers are modelled as `ℝ`; `Math.random()` and `Date`
parsing are modelled as explicit function parameters (external entropy /
browser builtins); JS string keys stay `String`.
-/

noncomputable section

open Real

/-- `Camera` from src/types.ts: two camera angles. -/
structure Camera where
  tiltX : ℝ
  rotationY : ℝ

/-- The `{x, y, z}` record returned by `projectOrbitPoint`. -/
structure Proj3 where
  x : ℝ
  y : ℝ
  z : ℝ

/-- `projectOrbitPoint` from src/canvas/planets.ts, transcribed
statement by statement: start on the flat circle, rotate around X by
`planeTiltX`, around Z by `planeTiltZ`, then the camera Y rotation and
camera X tilt; translate x,y by the center and return the post-camera z
untranslated. -/
def projectOrbitPoint (angle orbitRadius planeTiltX planeTiltZ centerX centerY : ℝ)
    (camera : Camera) : Proj3 :=
  let x0 := Real.cos angle * orbitRadius
  let y0 := Real.sin angle * orbitRadius
  let z0 : ℝ := 0
  -- Rotate around X axis by planeTiltX
  let y1 := y0 * Real.cos planeTiltX - z0 * Real.sin planeTiltX
  let z1 := y0 * Real.sin planeTiltX + z0 * Real.cos planeTiltX
  -- Rotate around Z axis by planeTiltZ
  let x2 := x0 * Real.cos planeTiltZ - y1 * Real.sin planeTiltZ
  let y2 := x0 * Real.sin planeTiltZ + y1 * Real.cos planeTiltZ
  -- Apply camera Y rotation
  let x3 := x2 * Real.cos camera.rotationY - z1 * Real.sin camera.rotationY
  let z3 := x2 * Real.sin camera.rotationY + z1 * Real.cos camera.rotationY
  -- Apply camera X tilt
  let y4 := y2 * Real.cos camera.tiltX - z3 * Real.sin camera.tiltX
  let z4 := y2 * Real.sin camera.tiltX + z3 * Real.cos camera.tiltX
  ⟨centerX + x3, centerY + y4, z4⟩

/-- Specification-side rotation about the X axis (2D rotation of the
(y, z) coordinate pair). -/
def rotAboutX (t : ℝ) (v : Proj3) : Proj3 :=
  ⟨v.x, v.y * Real.cos t - v.z * Real.sin t, v.y * Real.sin t + v.z * Real.cos t⟩

/-- Specification-side rotation about the Y axis (2D rotation of the
(x, z) coordinate pair). -/
def rotAboutY (t : ℝ) (v : Proj3) : Proj3 :=
  ⟨v.x * Real.cos t - v.z * Real.sin t, v.y, v.x * Real.sin t + v.z * Real.cos t⟩

/-- Specification-side rotation about the Z axis (2D rotation of the
(x, y) coordinate pair). -/
def rotAboutZ (t : ℝ) (v : Proj3) : Proj3 :=
  ⟨v.x * Real.cos t - v.y * Real.sin t, v.x * Real.sin t + v.y * Real.cos t, v.z⟩

/-- The projection pipeline exactly as the spec words it: place the
point on a flat ring, rotate about X by the plane tilt, about Z by the
plane rotation, about Y by the camera rotation, about X by the camera
tilt; translate (x, y) by the origin and keep the post-camera z as the
depth. -/
def projectionPipeline (angle orbitRadius planeTiltX planeTiltZ centerX centerY : ℝ)
    (camera : Camera) : Proj3 :=
  let flat : Proj3 := ⟨Real.cos angle * orbitRadius, Real.sin angle * orbitRadius, 0⟩
  let rotated := rotAboutX camera.tiltX
    (rotAboutY camera.rotationY (rotAboutZ planeTiltZ (rotAboutX planeTiltX flat)))
  ⟨centerX + rotated.x, centerY + rotated.y, rotated.z⟩

/-- `WalletInteraction` from src/types.ts. Counts are naturals (they are
built by increments from zero in `buildInteractions`). -/
structure WalletInteraction where
  address : String
  label : Option String
  totalValueUsd : ℝ
  txCount : ℕ
  sentCount : ℕ
  receivedCount : ℕ
  chains : List String
  primaryChain : String
  firstInteraction : String
  lastInteraction : String

/-- `Planet` from src/types.ts. -/
structure Planet where
  interaction : WalletInteraction
  orbitRadius : ℝ
  angle : ℝ
  angularSpeed : ℝ
  size : ℝ
  color : String
  glowColor : String
  x : ℝ
  y : ℝ
  z : ℝ
  hovered : Bool
  planeTiltX : ℝ
  planeTiltZ : ℝ

/-- `CHAIN_COLORS` lookup with default (`getChainColor` in
src/canvas/planets.ts); the JS record lookup with `?? default` is a chain
of key comparisons. Returns (fill, glow). -/
def getChainColor (chain : String) : String × String :=
  if chain = "eth-mainnet" then ("#627EEA", "rgba(98, 126, 234, 0.4)")
  else if chain = "matic-mainnet" then ("#8247E5", "rgba(130, 71, 229, 0.4)")
  else if chain = "polygon-mainnet" then ("#8247E5", "rgba(130, 71, 229, 0.4)")
  else if chain = "arbitrum-mainnet" then ("#28A0F0", "rgba(40, 160, 240, 0.4)")
  else if chain = "base-mainnet" then ("#0052FF", "rgba(0, 82, 255, 0.4)")
  else if chain = "optimism-mainnet" then ("#FF0420", "rgba(255, 4, 32, 0.4)")
  else if chain = "bsc-mainnet" then ("#F0B90B", "rgba(240, 185, 11, 0.4)")
  else if chain = "avalanche-mainnet" then ("#E84142", "rgba(232, 65, 66, 0.4)")
  else if chain = "fantom-mainnet" then ("#1969FF", "rgba(25, 105, 255, 0.4)")
  else ("#4ECDC4", "rgba(78, 205, 196, 0.4)")

/-- `CHAIN_PLANES` lookup with `DEFAULT_PLANE` fallback (`getChainPlane`
in src/canvas/planets.ts). Returns (tiltX, tiltZ). -/
def getChainPlane (chain : String) : ℝ × ℝ :=
  if chain = "eth-mainnet" then (0, 0)
  else if chain = "base-mainnet" then (Real.pi * 0.38, 0)
  else if chain = "bsc-mainnet" then (Real.pi * 0.25, Real.pi * 0.5)
  else if chain = "matic-mainnet" then (Real.pi * 0.35, Real.pi * 0.33)
  else if chain = "polygon-mainnet" then (Real.pi * 0.35, Real.pi * 0.33)
  else if chain = "arbitrum-mainnet" then (Real.pi * 0.2, Real.pi * 0.67)
  else if chain = "optimism-mainnet" then (Real.pi * 0.42, Real.pi * 0.17)
  else if chain = "avalanche-mainnet" then (Real.pi * 0.15, Real.pi * 0.83)
  else if chain = "fantom-mainnet" then (Real.pi * 0.3, Real.pi * 0.5)
  else (Real.pi * 0.1, 0)

/-- `Math.max(...interactions.map(w => w.txCount))` on a non-empty list
of naturals. -/
def maxTxOf (txCounts : List ℕ) : ℕ := txCounts.foldr max 0

/-- The body of the `interactions.map` arrow function in `createPlanets`
(src/canvas/planets.ts), for index `i`. The enclosing scope's values
(`n` = interactions.length, `minOrbit`, `orbitStep`, `maxTx`, center)
are parameters; `Math.random()` is modelled by the stream `rand`, one
fresh value per call. -/
def mkPlanet (rand : ℕ → ℝ) (n : ℕ) (minOrbit orbitStep : ℝ) (maxTx : ℕ)
    (centerX centerY : ℝ) (i : ℕ) (interaction : WalletInteraction) : Planet :=
  let orbitRadius := minOrbit + orbitStep * (i : ℝ)
  let angle := ((i : ℝ) / (n : ℝ)) * (Real.pi * 2) + rand (2 * i) * 0.5
  let angularSpeed := (0.15 + rand (2 * i + 1) * 0.1) / ((i : ℝ) + 1)
  let sizeRatio := (interaction.txCount : ℝ) / (if maxTx = 0 then 1 else (maxTx : ℝ))
  let size := 6 + sizeRatio * 18
  let colors := getChainColor interaction.primaryChain
  let plane := getChainPlane interaction.primaryChain
  { interaction := interaction
    orbitRadius := orbitRadius
    angle := angle
    angularSpeed := angularSpeed
    size := size
    color := colors.1
    glowColor := colors.2
    x := centerX + Real.cos angle * orbitRadius
    y := centerY + Real.sin angle * orbitRadius
    z := 0
    hovered := false
    planeTiltX := plane.1
    planeTiltZ := plane.2 }

/-- The indexed `map` of `createPlanets`, as structural recursion with a
running index. -/
def createPlanetsAux (rand : ℕ → ℝ) (n : ℕ) (minOrbit orbitStep : ℝ) (maxTx : ℕ)
    (centerX centerY : ℝ) : ℕ → List WalletInteraction → List Planet
  | _, [] => []
  | i, w :: ws =>
    mkPlanet rand n minOrbit orbitStep maxTx centerX centerY i w ::
      createPlanetsAux rand n minOrbit orbitStep maxTx centerX centerY (i + 1) ws

/-- `createPlanets` from src/canvas/planets.ts. `maxTx` is hoisted out of
the arrow function: the source recomputes the same value each iteration. -/
def createPlanets (rand : ℕ → ℝ) (interactions : List WalletInteraction)
    (centerX centerY _width height : ℝ) : List Planet :=
  let minOrbit : ℝ := 100
  let maxOrbit : ℝ := min (height * 0.42) 500
  let orbitStep : ℝ :=
    if 1 < interactions.length then (maxOrbit - minOrbit) / ((interactions.length : ℝ) - 1)
    else 0
  let maxTx := maxTxOf (interactions.map (fun w => w.txCount))
  createPlanetsAux rand interactions.length minOrbit orbitStep maxTx centerX centerY 0 interactions

/-- The ring-dedup key of `drawOrbits` (src/canvas/orbits.ts):
`orbitRadius.toFixed(1)_planeTiltX.toFixed(3)_planeTiltZ.toFixed(3)`.
Two keys are equal exactly when the rounded scaled values agree, so the
key is modelled as the triple of integer roundings. -/
def ringKey (p : Planet) : ℤ × ℤ × ℤ :=
  (round (p.orbitRadius * 10), round (p.planeTiltX * 1000), round (p.planeTiltZ * 1000))

/-- The dedup loop of `drawOrbits`: walk the planets keeping the set of
keys already drawn (`drawn`); a planet whose key is new has its key
added, and its ring is drawn unless its chain is disabled (the source
adds the key before the disabled check). Returns the keys actually
drawn, in draw order. -/
def drawOrbitsKeysAux (disabledChains : List String) :
    List Planet → List (ℤ × ℤ × ℤ) → List (ℤ × ℤ × ℤ)
  | [], _ => []
  | p :: ps, drawn =>
    let key := ringKey p
    if key ∈ drawn then drawOrbitsKeysAux disabledChains ps drawn
    else if p.interaction.primaryChain ∈ disabledChains then
      drawOrbitsKeysAux disabledChains ps (key :: drawn)
    else key :: drawOrbitsKeysAux disabledChains ps (key :: drawn)

/-- The distinct rings `drawOrbits` draws for a planet list. -/
def drawOrbitsRingKeys (planets : List Planet) (disabledChains : List String) :
    List (ℤ × ℤ × ℤ) :=
  drawOrbitsKeysAux disabledChains planets []

/-- `Ship.direction` values. -/
inductive ShipDirection
  | outbound
  | inbound
deriving DecidableEq

/-- A trail entry `{x, y, alpha}` of a ship. -/
structure TrailPoint where
  x : ℝ
  y : ℝ
  alpha : ℝ

/-- `Ship` from src/types.ts. -/
structure Ship where
  fromX : ℝ
  fromY : ℝ
  toX : ℝ
  toY : ℝ
  progress : ℝ
  speed : ℝ
  color : String
  trail : List TrailPoint
  direction : ShipDirection
  chain : String
  activationTime : ℝ

/-- The `activationTime` computation in `createShips`
(src/canvas/ships.ts): where the planet's first interaction falls in the
timeline window, clamped to [0, 1]; 0 without a timeline or with an
empty window. `parseTime` models `new Date(s).getTime()`. -/
def shipActivationTime (parseTime : String → ℝ) (timelineRange : Option (ℝ × ℝ))
    (planet : Planet) : ℝ :=
  match timelineRange with
  | none => 0
  | some (startT, endT) =>
    let firstDate := parseTime planet.interaction.firstInteraction
    let range := endT - startT
    if 0 < range then max 0 (min 1 ((firstDate - startT) / range)) else 0

/-- The ships one planet contributes in `createShips`
(src/canvas/ships.ts): `min(sentCount, 3)` outbound ships (center →
planet) followed by `min(receivedCount, 3)` inbound ships (planet →
center). `rand` supplies the `Math.random()` draws, two per ship
(starting progress and speed). -/
def shipsForPlanet (rand : ℕ → ℝ) (centerX centerY : ℝ)
    (timelineRange : Option (ℝ × ℝ)) (parseTime : String → ℝ) (planet : Planet) :
    List Ship :=
  let outboundCount := min planet.interaction.sentCount 3
  let inboundCount := min planet.interaction.receivedCount 3
  let activationTime := shipActivationTime parseTime timelineRange planet
  ((List.range outboundCount).map (fun i =>
    { fromX := centerX, fromY := centerY, toX := planet.x, toY := planet.y
      progress := rand (2 * i), speed := 0.003 + rand (2 * i + 1) * 0.004
      color := "#ff9944", trail := [], direction := ShipDirection.outbound
      chain := planet.interaction.primaryChain, activationTime := activationTime })) ++
  ((List.range inboundCount).map (fun i =>
    { fromX := planet.x, fromY := planet.y, toX := centerX, toY := centerY
      progress := rand (2 * (outboundCount + i))
      speed := 0.003 + rand (2 * (outboundCount + i) + 1) * 0.004
      color := "#44ccff", trail := [], direction := ShipDirection.inbound
      chain := planet.interaction.primaryChain, activationTime := activationTime }))

/-- `createShips` from src/canvas/ships.ts: the per-planet batches,
concatenated in planet order. -/
def createShips (rand : ℕ → ℝ) (planets : List Planet) (centerX centerY : ℝ)
    (timelineRange : Option (ℝ × ℝ)) (parseTime : String → ℝ) : List Ship :=
  planets.flatMap (shipsForPlanet rand centerX centerY timelineRange parseTime)

/-- One ship's step inside the `updateShips` loop (src/canvas/ships.ts):
advance `progress` by `speed` and on overflow past 1 reset it to 0 and
clear the trail; refresh the endpoints from the indexed planet's current
position (when there is one); compute the quadratic-bezier head point;
then either push the head onto the trail, fade every trail point by
0.03 and drop the non-positive ones (trails enabled), or replace the
trail by the head alone (trails disabled). -/
def updateShip (centerX centerY : ℝ) (trailsEnabled : Bool)
    (planetPos : Option (ℝ × ℝ)) (ship : Ship) : Ship :=
  let s1 :=
    if 1 < ship.progress + ship.speed then
      { ship with progress := 0, trail := ([] : List TrailPoint) }
    else { ship with progress := ship.progress + ship.speed }
  let s2 :=
    match planetPos with
    | some (px, py) =>
      if s1.direction = ShipDirection.outbound then
        { s1 with fromX := centerX, fromY := centerY, toX := px, toY := py }
      else { s1 with fromX := px, fromY := py, toX := centerX, toY := centerY }
    | none => s1
  let t := s2.progress
  let midX := (s2.fromX + s2.toX) / 2
  let midY := (s2.fromY + s2.toY) / 2
  let dx := s2.toX - s2.fromX
  let dy := s2.toY - s2.fromY
  let perpX := -dy * 0.15
  let perpY := dx * 0.15
  let controlX := midX + perpX
  let controlY := midY + perpY
  let x := (1 - t) * (1 - t) * s2.fromX + 2 * (1 - t) * t * controlX + t * t * s2.toX
  let y := (1 - t) * (1 - t) * s2.fromY + 2 * (1 - t) * t * controlY + t * t * s2.toY
  let trail :=
    if trailsEnabled then
      ((s2.trail ++ [⟨x, y, 1⟩]).map (fun p => { p with alpha := p.alpha - 0.03 })).filter
        (fun p => decide (0 < p.alpha))
    else [⟨x, y, 1⟩]
  { s2 with trail := trail }

/-- `reassociateShips` (src/canvas/ships.ts), with its two running
counters explicit: the j-th outbound ship gets the position of
`planets[j % planets.length]`, independently the j-th inbound ship that
of `planets[j % planets.length]`. (`planets[x]` of an empty list is
`undefined`; `none` here, and the ship is left as is.) -/
def reassociateShipsAux (planets : List Planet) (centerX centerY : ℝ) :
    List Ship → ℕ → ℕ → List Ship
  | [], _, _ => []
  | s :: ss, outIdx, inIdx =>
    if s.direction = ShipDirection.outbound then
      (match planets.get? (outIdx % planets.length) with
       | some p => { s with fromX := centerX, fromY := centerY, toX := p.x, toY := p.y }
       | none => s) :: reassociateShipsAux planets centerX centerY ss (outIdx + 1) inIdx
    else
      (match planets.get? (inIdx % planets.length) with
       | some p => { s with fromX := p.x, fromY := p.y, toX := centerX, toY := centerY }
       | none => s) :: reassociateShipsAux planets centerX centerY ss outIdx (inIdx + 1)

/-- `reassociateShips` entry point. -/
def reassociateShips (ships : List Ship) (planets : List Planet)
    (centerX centerY : ℝ) : List Ship :=
  reassociateShipsAux planets centerX centerY ships 0 0

/-- `updateShips` (src/canvas/ships.ts): each ship advances via
`updateShip` against `planets[planetIdx % planets.length]` — the source
increments `planetIdx` once per ship in both branches, so it equals the
ship's index — and afterwards `reassociateShips` rewrites every ship's
endpoints with direction-separate round-robin counters. -/
def updateShips (ships : List Ship) (planets : List Planet) (centerX centerY : ℝ)
    (trailsEnabled : Bool) : List Ship :=
  reassociateShips
    (ships.mapIdx (fun i s =>
      updateShip centerX centerY trailsEnabled
        ((planets.get? (i % planets.length)).map (fun p => (p.x, p.y))) s))
    planets centerX centerY

/-- Stable insertion into a list sorted in descending key order; the
element goes after any earlier element with an equal or larger key.
This realizes one step of `Array.prototype.sort` with the comparator
`(a, b) => key(b) - key(a)` (ECMAScript sort is stable and, for such a
consistent comparator, produces the descending ordering). -/
def insertDescBy {α K : Type} [LinearOrder K] (key : α → K) (a : α) :
    List α → List α
  | [] => [a]
  | b :: l => if key b < key a then a :: b :: l else b :: insertDescBy key a l

/-- Stable descending sort by `key` (insertion sort, processing the list
left to right). -/
def sortDescBy {α K : Type} [LinearOrder K] (key : α → K) (l : List α) : List α :=
  l.foldl (fun acc a => insertDescBy key a acc) []

/-- The per-planet update at the top of `drawPlanets`
(src/canvas/planets.ts): advance the angle by `angularSpeed · 0.016` and
re-project position and depth. -/
def updatePlanet (centerX centerY : ℝ) (camera : Camera) (p : Planet) : Planet :=
  let angle := p.angle + p.angularSpeed * 0.016
  let proj := projectOrbitPoint angle p.orbitRadius p.planeTiltX p.planeTiltZ
    centerX centerY camera
  { p with angle := angle, x := proj.x, y := proj.y, z := proj.z }

/-- The body draw order of `drawPlanets`: update and re-project every
planet, z-sort descending (`(a, b) => b.z - a.z`, back-to-front), then
skip disabled-chain planets at draw time. -/
def drawPlanetsOrder (planets : List Planet) (centerX centerY : ℝ) (camera : Camera)
    (disabledChains : List String) : List Planet :=
  (sortDescBy Planet.z (planets.map (updatePlanet centerX centerY camera))).filter
    (fun p => !(disabledChains.contains p.interaction.primaryChain))

/-- `screenToWorld` from src/canvas/renderer.ts: un-zoom the pointer
about the center. -/
def screenToWorld (centerX centerY zoom sx sy : ℝ) : ℝ × ℝ :=
  ((sx - centerX) / zoom + centerX, (sy - centerY) / zoom + centerY)

/-- The distance expression of the hit tests:
`Math.sqrt(dx * dx + dy * dy)`. -/
def hitDist (wx wy px py : ℝ) : ℝ :=
  Real.sqrt ((wx - px) * (wx - px) + (wy - py) * (wy - py))

/-- Pass 1 of the render-loop hit test (src/canvas/renderer.ts): walk
the planets, skipping disabled chains; any body within `size + 12` of
the world pointer overwrites `found`, so the last match wins. -/
def hitTestBodiesAux (disabledChains : List String) (wx wy : ℝ) :
    List Planet → Option Planet → Option Planet
  | [], found => found
  | p :: ps, found =>
    if p.interaction.primaryChain ∈ disabledChains then
      hitTestBodiesAux disabledChains wx wy ps found
    else if hitDist wx wy p.x p.y < p.size + 12 then
      hitTestBodiesAux disabledChains wx wy ps (some p)
    else hitTestBodiesAux disabledChains wx wy ps found

/-- The inner 60-sample loop of the orbit-ring hit test (pass 2) for one
planet. The accumulator carries `closestDist` — `⊤ : EReal` stands for
the initial `Infinity` — and the planet found so far. -/
def ringScanPlanet (wx wy orbitThreshold centerX centerY : ℝ) (camera : Camera)
    (p : Planet) (acc : EReal × Option Planet) : EReal × Option Planet :=
  (List.range 60).foldl
    (fun acc (i : ℕ) =>
      let a := ((i : ℝ) / 60) * (Real.pi * 2)
      let pt := projectOrbitPoint a p.orbitRadius p.planeTiltX p.planeTiltZ
        centerX centerY camera
      let d := hitDist wx wy pt.x pt.y
      if d < orbitThreshold ∧ (d : EReal) < acc.1 then ((d : EReal), some p) else acc)
    acc

/-- Pass 2 of the hit test: scan every enabled planet's ring. -/
def hitTestRingsAux (disabledChains : List String) (wx wy orbitThreshold centerX centerY : ℝ)
    (camera : Camera) : List Planet → EReal × Option Planet → Option Planet
  | [], acc => acc.2
  | p :: ps, acc =>
    if p.interaction.primaryChain ∈ disabledChains then
      hitTestRingsAux disabledChains wx wy orbitThreshold centerX centerY camera ps acc
    else
      hitTestRingsAux disabledChains wx wy orbitThreshold centerX centerY camera ps
        (ringScanPlanet wx wy orbitThreshold centerX centerY camera p acc)

/-- The per-frame hit test at the bottom of the render loop
(src/canvas/renderer.ts): un-zoom the pointer, run the body pass, and
only if it found nothing run the ring pass with threshold `10 / zoom`
and 60 samples per ring. -/
def hitTest (planets : List Planet) (disabledChains : List String)
    (centerX centerY zoom mouseX mouseY : ℝ) (camera : Camera) : Option Planet :=
  let world := screenToWorld centerX centerY zoom mouseX mouseY
  match hitTestBodiesAux disabledChains world.1 world.2 planets none with
  | some p => some p
  | none =>
    hitTestRingsAux disabledChains world.1 world.2 (10 / zoom) centerX centerY camera
      planets (⊤, none)

/-- Specification-side description of pass 1: the LAST planet in
iteration order that is on an enabled chain and whose stored projected
position lies within `size + 12` of the un-zoomed pointer. -/
def lastEnabledBodyHit (disabledChains : List String) (wx wy : ℝ) :
    List Planet → Option Planet
  | [] => none
  | p :: ps =>
    match lastEnabledBodyHit disabledChains wx wy ps with
    | some q => some q
    | none =>
      if p.interaction.primaryChain ∉ disabledChains ∧ hitDist wx wy p.x p.y < p.size + 12
      then some p else none

/-- One wheel event in `setupInteraction` (src/canvas/renderer.ts):
multiply the zoom by 1.08 (`deltaY < 0`, zoom in) or 1/1.08 and clamp
into [0.3, 8]. -/
def wheelZoom (zoom : ℝ) (zoomIn : Bool) : ℝ :=
  let zoomFactor := if zoomIn then (1.08 : ℝ) else 1 / 1.08
  max 0.3 (min 8 (zoom * zoomFactor))

/-- A sequence of wheel events applied in order from a starting zoom. -/
def applyWheel (z0 : ℝ) (events : List Bool) : ℝ := events.foldl wheelZoom z0

/-- `Transaction` from src/types.ts; `to_address` is nullable and the
optional numeric fields are `Option ℝ`. -/
structure Transaction where
  from_address : String
  to_address : Option String
  from_address_label : Option String
  to_address_label : Option String
  value_quote : Option ℝ
  block_signed_at : String
  successful : Bool
  chain_name : String
  chain_id : String
  tx_hash : String
  gas_quote : Option ℝ

/-- The direction tag `'sent' | 'received'` in `buildInteractions`. -/
inductive TxDirection
  | sent
  | received
deriving DecidableEq

/-- The aggregation entry of `buildInteractions` (src/api/goldrush.ts).
`chains` models the insertion-ordered JS `Set`, `primaryChainCount` the
insertion-ordered JS `Map`. -/
structure InteractionEntry where
  address : String
  label : Option String
  totalValueUsd : ℝ
  txCount : ℕ
  sentCount : ℕ
  receivedCount : ℕ
  chains : List String
  primaryChainCount : List (String × ℕ)
  firstInteraction : String
  lastInteraction : String

/-- JS truthiness of a nullable string (`null` and `""` are falsy). -/
def truthyStr : Option String → Bool
  | none => false
  | some s => !(s == "")

/-- `Set.add` on the insertion-ordered chain set. -/
def setAdd (chains : List String) (c : String) : List String :=
  if c ∈ chains then chains else chains ++ [c]

/-- `map.set(chain, (map.get(chain) ?? 0) + 1)` on the insertion-ordered
chain-count map. -/
def bumpChainCount : List (String × ℕ) → String → List (String × ℕ)
  | [], c => [(c, 1)]
  | (k, n) :: m, c => if k = c then (k, n + 1) :: m else (k, n) :: bumpChainCount m c

/-- The fresh entry created when a counterparty is first seen. -/
def freshEntry (counterparty : String) (counterpartyLabel : Option String)
    (tx : Transaction) : InteractionEntry :=
  { address := counterparty, label := counterpartyLabel, totalValueUsd := 0
    txCount := 0, sentCount := 0, receivedCount := 0, chains := []
    primaryChainCount := [], firstInteraction := tx.block_signed_at
    lastInteraction := tx.block_signed_at }

/-- The mutations `buildInteractions` applies to the (found or fresh)
entry for one transaction, in source order: bump txCount and the
direction count, add `value_quote ?? 0`, record the chain (when truthy),
widen the first/last interaction window (JS string comparison is
lexicographic, as is Lean's), and backfill a truthy label. -/
def applyTx (tx : Transaction) (direction : TxDirection)
    (counterpartyLabel : Option String) (e0 : InteractionEntry) : InteractionEntry :=
  let e1 := { e0 with txCount := e0.txCount + 1 }
  let e2 :=
    match direction with
    | TxDirection.sent => { e1 with sentCount := e1.sentCount + 1 }
    | TxDirection.received => { e1 with receivedCount := e1.receivedCount + 1 }
  let e3 := { e2 with totalValueUsd := e2.totalValueUsd + tx.value_quote.getD 0 }
  let e4 :=
    if tx.chain_name = "" then e3
    else
      { e3 with chains := setAdd e3.chains tx.chain_name
                primaryChainCount := bumpChainCount e3.primaryChainCount tx.chain_name }
  let e5 :=
    if e4.lastInteraction < tx.block_signed_at then
      { e4 with lastInteraction := tx.block_signed_at }
    else e4
  let e6 :=
    if tx.block_signed_at < e5.firstInteraction then
      { e5 with firstInteraction := tx.block_signed_at }
    else e5
  if !truthyStr e6.label && truthyStr counterpartyLabel then
    { e6 with label := counterpartyLabel }
  else e6

/-- `map.get` / `map.set` on the insertion-ordered entry list: update the
matching entry in place, or append a fresh one (the source creates the
entry and then mutates it in the same iteration). -/
def upsertEntry (tx : Transaction) (counterparty : String)
    (counterpartyLabel : Option String) (direction : TxDirection) :
    List InteractionEntry → List InteractionEntry
  | [] => [applyTx tx direction counterpartyLabel (freshEntry counterparty counterpartyLabel tx)]
  | e :: es =>
    if e.address = counterparty then applyTx tx direction counterpartyLabel e :: es
    else e :: upsertEntry tx counterparty counterpartyLabel direction es

/-- The per-transaction body of the aggregation loop in
`buildInteractions`: skip when either address is missing/empty, classify
the direction against the wallet, skip self-interactions, and upsert. -/
def processTx (wallet : String) (entries : List InteractionEntry)
    (tx : Transaction) : List InteractionEntry :=
  let fromA := tx.from_address.toLower
  match tx.to_address with
  | none => entries
  | some rawTo =>
    let toA := rawTo.toLower
    if fromA = "" ∨ toA = "" then entries
    else
      let choice : Option (String × Option String × TxDirection) :=
        if fromA = wallet then some (toA, tx.to_address_label, TxDirection.sent)
        else if toA = wallet then some (fromA, tx.from_address_label, TxDirection.received)
        else none
      match choice with
      | none => entries
      | some (counterparty, counterpartyLabel, direction) =>
        if counterparty = wallet then entries
        else upsertEntry tx counterparty counterpartyLabel direction entries

/-- The `primaryChain` fold at the end of `buildInteractions`: the chain
with the strictly highest count wins (first reached wins ties), with
default `eth-mainnet`. -/
def pickPrimaryChain (counts : List (String × ℕ)) : String :=
  (counts.foldl (fun acc kc => if acc.2 < kc.2 then kc else acc) ("eth-mainnet", 0)).1

/-- The entry → `WalletInteraction` conversion at the end of
`buildInteractions`. -/
def entryToInteraction (e : InteractionEntry) : WalletInteraction :=
  { address := e.address, label := e.label, totalValueUsd := e.totalValueUsd
    txCount := e.txCount, sentCount := e.sentCount, receivedCount := e.receivedCount
    chains := e.chains, primaryChain := pickPrimaryChain e.primaryChainCount
    firstInteraction := e.firstInteraction, lastInteraction := e.lastInteraction }

/-- `buildInteractions` from src/api/goldrush.ts: aggregate per
counterparty in first-appearance order, convert, sort by descending
txCount (`(a, b) => b.txCount - a.txCount`, stable) and `slice(0, 20)`. -/
def buildInteractions (walletAddress : String) (transactions : List Transaction) :
    List WalletInteraction :=
  let wallet := walletAddress.toLower
  let entries := transactions.foldl (processTx wallet) []
  (sortDescBy (fun w => w.txCount) (entries.map entryToInteraction)).take 20

/-! ## Concrete fixtures (inputs for witnesses and counterexamples) -/

/-- A minimal interaction record used by concrete test inputs. -/
def fixtureInteraction : WalletInteraction :=
  { address := "0x0", label := none, totalValueUsd := 0, txCount := 0, sentCount := 0
    receivedCount := 0, chains := [], primaryChain := "eth-mainnet"
    firstInteraction := "", lastInteraction := "" }

/-- A planet on the flat plane at angle π/2 with zero angular speed and
orbit radius `r`: under the camera (tiltX = π/2, rotationY = 0) its
projected depth is exactly `r`. -/
def flatPlanet (r : ℝ) : Planet :=
  { interaction := fixtureInteraction, orbitRadius := r, angle := Real.pi / 2
    angularSpeed := 0, size := 6, color := "", glowColor := "", x := 0, y := 0, z := 0
    hovered := false, planeTiltX := 0, planeTiltZ := 0 }

/-- A ship at progress 0.999 with speed 0.01 (the wrap scenario). -/
def wrapShip : Ship :=
  { fromX := 0, fromY := 0, toX := 0, toY := 0, progress := 0.999, speed := 0.01
    color := "#ff9944", trail := [], direction := ShipDirection.outbound
    chain := "eth-mainnet", activationTime := 0 }

/-- The single planet `createPlanets` builds from
`[fixtureInteraction]` at center (0, 0) and height 200. -/
def fixturePlanet : Planet :=
  mkPlanet (fun _ => 0) 1 100 0 0 0 0 0 fixtureInteraction

/-- An interaction with 2 sent transactions (so 2 outbound ships). -/
def senderInteraction : WalletInteraction :=
  { address := "0xaaa", label := none, totalValueUsd := 0, txCount := 2, sentCount := 2
    receivedCount := 0, chains := ["eth-mainnet"], primaryChain := "eth-mainnet"
    firstInteraction := "", lastInteraction := "" }

/-- An interaction with no transactions (no ships). -/
def quietInteraction : WalletInteraction :=
  { address := "0xbbb", label := none, totalValueUsd := 0, txCount := 0, sentCount := 0
    receivedCount := 0, chains := ["base-mainnet"], primaryChain := "base-mainnet"
    firstInteraction := "", lastInteraction := "" }

/-- The sender planet, projected at (10, 20). -/
def senderPlanet : Planet :=
  { interaction := senderInteraction, orbitRadius := 100, angle := 0, angularSpeed := 0
    size := 6, color := "", glowColor := "", x := 10, y := 20, z := 0
    hovered := false, planeTiltX := 0, planeTiltZ := 0 }

/-- The quiet planet, projected at (30, 40). -/
def quietPlanet : Planet :=
  { interaction := quietInteraction, orbitRadius := 200, angle := 0, angularSpeed := 0
    size := 6, color := "", glowColor := "", x := 30, y := 40, z := 0
    hovered := false, planeTiltX := 0, planeTiltZ := 0 }

/-- The ship batch for [senderPlanet, quietPlanet]: both ships belong to
the sender planet. -/
def mismatchShips : List Ship :=
  createShips (fun _ => 0) [senderPlanet, quietPlanet] 0 0 none (fun _ => 0)

/-- First interaction of the end-to-end scenario: txCount 10 on
eth-mainnet. -/
def ethRecBig : WalletInteraction :=
  { address := "0xa1", label := none, totalValueUsd := 0, txCount := 10, sentCount := 0
    receivedCount := 0, chains := ["eth-mainnet"], primaryChain := "eth-mainnet"
    firstInteraction := "", lastInteraction := "" }

/-- Second interaction: txCount 5 on base-mainnet. -/
def baseRecMid : WalletInteraction :=
  { address := "0xa2", label := none, totalValueUsd := 0, txCount := 5, sentCount := 0
    receivedCount := 0, chains := ["base-mainnet"], primaryChain := "base-mainnet"
    firstInteraction := "", lastInteraction := "" }

/-- Third interaction: txCount 1 on eth-mainnet. -/
def ethRecSmall : WalletInteraction :=
  { address := "0xa3", label := none, totalValueUsd := 0, txCount := 1, sentCount := 0
    receivedCount := 0, chains := ["eth-mainnet"], primaryChain := "eth-mainnet"
    firstInteraction := "", lastInteraction := "" }

/-! ## Theorems -/

/-- C1: `projectOrbitPoint` computes its result by exactly the
spec's pipeline — flat ring point, rotation about X by the plane tilt,
about Z by the plane orientation, about Y by the camera rotation, about
X by the camera tilt, then translation of (x, y) by the origin — and
the returned depth is the post-camera z before translation. -/
theorem projectOrbitPoint_eq_pipeline
    (angle orbitRadius planeTiltX planeTiltZ centerX centerY : ℝ) (camera : Camera) :
    projectOrbitPoint angle orbitRadius planeTiltX planeTiltZ centerX centerY camera =
      projectionPipeline angle orbitRadius planeTiltX planeTiltZ centerX centerY camera := by
  simp only [projectOrbitPoint, projectionPipeline, rotAboutX, rotAboutY, rotAboutZ]

/-- C6 counterexample: with the identity camera but a tilted orbital
plane (planeTiltX = π), the projected y is the negation of the flat
value, not the flat value: at angle = π/2, radius 1 and center (0, 0)
the code returns y = -1 while flat-circle trigonometry gives 1. -/
theorem projectOrbitPoint_tilted_plane_counterexample :
    (projectOrbitPoint (Real.pi / 2) 1 Real.pi 0 0 0 ⟨0, 0⟩).y ≠
      0 + Real.sin (Real.pi / 2) * 1 := by
  simp [projectOrbitPoint, Real.sin_pi_div_two, Real.cos_pi_div_two]
  norm_num

/-- Every wheel step lands inside the clamp range. -/
lemma wheelZoom_bounds (z : ℝ) (b : Bool) : 0.3 ≤ wheelZoom z b ∧ wheelZoom z b ≤ 8 := by
  unfold wheelZoom
  exact ⟨le_max_left _ _, max_le (by norm_num) (min_le_left _ _)⟩

/-- Folding wheel events preserves the clamp range. -/
lemma applyWheel_bounds :
    ∀ (events : List Bool) (z : ℝ), 0.3 ≤ z → z ≤ 8 →
      0.3 ≤ applyWheel z events ∧ applyWheel z events ≤ 8
  | [], _, h1, h2 => ⟨h1, h2⟩
  | e :: es, z, _, _ =>
    applyWheel_bounds es (wheelZoom z e) (wheelZoom_bounds z e).1 (wheelZoom_bounds z e).2

/-- C8: starting from zoom = 1, any sequence of wheel-zoom events
(each multiplying by 1.08 or 1/1.08, then clamping) leaves the zoom in
[0.3, 8]: zooming in never exceeds 8 and zooming out never drops below
0.3. -/
theorem zoom_clamped (events : List Bool) :
    0.3 ≤ applyWheel 1 events ∧ applyWheel 1 events ≤ 8 :=
  applyWheel_bounds events 1 (by norm_num) (by norm_num)

/-- Membership in a descending insertion. -/
lemma mem_insertDescBy {α K : Type} [LinearOrder K] (key : α → K) (a x : α) :
    ∀ l : List α, x ∈ insertDescBy key a l ↔ x = a ∨ x ∈ l
  | [] => by simp [insertDescBy]
  | b :: l => by
    unfold insertDescBy
    by_cases h : key b < key a
    · simp only [if_pos h, List.mem_cons]
    · simp only [if_neg h, List.mem_cons, mem_insertDescBy key a x l]
      tauto

/-- Descending insertion preserves descending sortedness. -/
lemma pairwise_insertDescBy {α K : Type} [LinearOrder K] (key : α → K) (a : α) :
    ∀ l : List α, l.Pairwise (fun x y => key y ≤ key x) →
      (insertDescBy key a l).Pairwise (fun x y => key y ≤ key x)
  | [], _ => by simp [insertDescBy]
  | b :: l, h => by
    unfold insertDescBy
    rcases List.pairwise_cons.1 h with ⟨hb, hl⟩
    by_cases hba : key b < key a
    · rw [if_pos hba]
      refine List.pairwise_cons.2 ⟨?_, h⟩
      intro x hx
      rcases List.mem_cons.1 hx with rfl | hx
      · exact le_of_lt hba
      · exact le_trans (hb x hx) (le_of_lt hba)
    · rw [if_neg hba]
      refine List.pairwise_cons.2 ⟨?_, pairwise_insertDescBy key a l hl⟩
      intro x hx
      rcases (mem_insertDescBy key a x l).1 hx with rfl | hx
      · exact not_lt.1 hba
      · exact hb x hx

/-- `sortDescBy` sorts descending by the key. -/
lemma pairwise_sortDescBy {α K : Type} [LinearOrder K] (key : α → K) (l : List α) :
    (sortDescBy key l).Pairwise (fun x y => key y ≤ key x) := by
  suffices h : ∀ acc : List α, acc.Pairwise (fun x y => key y ≤ key x) →
      (l.foldl (fun acc a => insertDescBy key a acc) acc).Pairwise
        (fun x y => key y ≤ key x) by
    exact h [] (by simp)
  induction l with
  | nil => intro acc hacc; simpa using hacc
  | cons a l ih =>
    intro acc hacc
    exact ih _ (pairwise_insertDescBy key a acc hacc)

/-- A mapped list whose images all satisfy the predicate is unchanged by
the filter. -/
lemma filter_map_all_true {α β : Type} (f : α → β) (p : β → Bool) (l : List α)
    (h : ∀ a, p (f a) = true) : (l.map f).filter p = l.map f := by
  apply List.filter_eq_self.mpr
  intro b hb
  obtain ⟨a, _, rfl⟩ := List.mem_map.1 hb
  exact h a

/-- A mapped list none of whose images satisfy the predicate filters to
nil. -/
lemma filter_map_all_false {α β : Type} (f : α → β) (p : β → Bool) (l : List α)
    (h : ∀ a, p (f a) = false) : (l.map f).filter p = [] := by
  induction l with
  | nil => rfl
  | cons a l ih => simp [List.filter, h a, ih]

/-- C9: `buildInteractions` returns at most 20 records, sorted by
descending txCount; `createShips` is the per-planet batches in order,
and each planet's batch holds exactly `min(sentCount, 3)` outbound
ships and `min(receivedCount, 3)` inbound ships — never more than 6
particles per body. -/
theorem buildInteractions_cap_sort_ship_quotas
    (walletAddress : String) (transactions : List Transaction)
    (rand : ℕ → ℝ) (planets : List Planet) (centerX centerY : ℝ)
    (timelineRange : Option (ℝ × ℝ)) (parseTime : String → ℝ) :
    (buildInteractions walletAddress transactions).length ≤ 20 ∧
    (buildInteractions walletAddress transactions).Pairwise
      (fun a b => b.txCount ≤ a.txCount) ∧
    createShips rand planets centerX centerY timelineRange parseTime =
      planets.flatMap (shipsForPlanet rand centerX centerY timelineRange parseTime) ∧
    ∀ p ∈ planets,
      ((shipsForPlanet rand centerX centerY timelineRange parseTime p).filter
          (fun s => s.direction == ShipDirection.outbound)).length =
        min p.interaction.sentCount 3 ∧
      ((shipsForPlanet rand centerX centerY timelineRange parseTime p).filter
          (fun s => s.direction == ShipDirection.inbound)).length =
        min p.interaction.receivedCount 3 ∧
      (shipsForPlanet rand centerX centerY timelineRange parseTime p).length ≤ 6 := by
  refine ⟨?_, ?_, rfl, ?_⟩
  · unfold buildInteractions
    simp [List.length_take]
  · unfold buildInteractions
    exact List.Pairwise.sublist (List.take_sublist _ _) (pairwise_sortDescBy _ _)
  · intro p _
    unfold shipsForPlanet
    refine ⟨?_, ?_, ?_⟩
    · rw [List.filter_append, filter_map_all_true _ _ _ (fun i => by simp),
        filter_map_all_false _ _ _ (fun i => by simp)]
      simp
    · rw [List.filter_append, filter_map_all_false _ _ _ (fun i => by simp),
        filter_map_all_true _ _ _ (fun i => by simp)]
      simp
    · simp only [List.length_append, List.length_map, List.length_range]
      have h1 : min p.interaction.sentCount 3 ≤ 3 := min_le_right _ _
      have h2 : min p.interaction.receivedCount 3 ≤ 3 := min_le_right _ _
      omega

/-- C6 (amended): for a body on the flat (untilted) orbital plane —
planeTiltX = 0 and planeTiltZ = 0 — the identity camera reproduces
direct flat-circle trigonometry exactly: the result is
(centerX + cos(angle)·r, centerY + sin(angle)·r) with depth 0. -/
theorem projectOrbitPoint_identity_camera_flat (angle r centerX centerY : ℝ) :
    projectOrbitPoint angle r 0 0 centerX centerY ⟨0, 0⟩ =
      ⟨centerX + Real.cos angle * r, centerY + Real.sin angle * r, 0⟩ := by
  simp [projectOrbitPoint]


/-- C5: in `drawPlanets`, three bodies whose post-camera depths after
the per-frame update satisfy z1 < z2 < z3 are drawn farthest first:
the draw order is the third, then the second, then the first. -/
theorem drawPlanets_depth_order (p1 p2 p3 : Planet) (centerX centerY : ℝ) (camera : Camera)
    (h12 : (updatePlanet centerX centerY camera p1).z < (updatePlanet centerX centerY camera p2).z)
    (h23 : (updatePlanet centerX centerY camera p2).z < (updatePlanet centerX centerY camera p3).z) :
    drawPlanetsOrder [p1, p2, p3] centerX centerY camera [] =
      [updatePlanet centerX centerY camera p3,
       updatePlanet centerX centerY camera p2,
       updatePlanet centerX centerY camera p1] := by
  unfold drawPlanetsOrder sortDescBy
  simp only [List.map_cons, List.map_nil, List.foldl_cons, List.foldl_nil]
  rw [show insertDescBy Planet.z (updatePlanet centerX centerY camera p1) [] =
        [updatePlanet centerX centerY camera p1] from rfl]
  rw [insertDescBy, if_pos h12, insertDescBy, if_pos h23]
  simp [List.filter]

/-- C5 witness: three flat-plane bodies with radii 1, 2, 3 at angle
π/2 under the camera (tiltX = π/2, rotationY = 0) have depths 1 < 2 < 3
and are drawn radius-3 body first, radius-1 body last. -/
theorem drawPlanets_depth_order_witness :
    drawPlanetsOrder [flatPlanet 1, flatPlanet 2, flatPlanet 3] 0 0 ⟨Real.pi / 2, 0⟩ [] =
      [updatePlanet 0 0 ⟨Real.pi / 2, 0⟩ (flatPlanet 3),
       updatePlanet 0 0 ⟨Real.pi / 2, 0⟩ (flatPlanet 2),
       updatePlanet 0 0 ⟨Real.pi / 2, 0⟩ (flatPlanet 1)] := by
  have hz : ∀ r : ℝ, (updatePlanet 0 0 ⟨Real.pi / 2, 0⟩ (flatPlanet r)).z = r := by
    intro r
    simp [updatePlanet, flatPlanet, projectOrbitPoint,
      Real.sin_pi_div_two, Real.cos_pi_div_two]
  exact drawPlanets_depth_order (flatPlanet 1) (flatPlanet 2) (flatPlanet 3) 0 0
    ⟨Real.pi / 2, 0⟩ (by rw [hz, hz]; norm_num) (by rw [hz, hz]; norm_num)

/-- C3 (amended): a ship at progress 0.999 with speed 0.01 wraps on the
next update step: its progress becomes 0 and its trail is cleared and
then receives the newly recorded head point, so the trail holds exactly
one point after the step (whether or not trails are enabled). -/
theorem updateShip_wrap_single_trail_point
    (centerX centerY : ℝ) (trailsEnabled : Bool) (planetPos : Option (ℝ × ℝ)) (ship : Ship)
    (hp : ship.progress = 0.999) (hs : ship.speed = 0.01) :
    (updateShip centerX centerY trailsEnabled planetPos ship).progress = 0 ∧
    (updateShip centerX centerY trailsEnabled planetPos ship).trail.length = 1 := by
  have hover : (1 : ℝ) < ship.progress + ship.speed := by rw [hp, hs]; norm_num
  unfold updateShip
  rw [if_pos hover]
  rcases planetPos with _ | ⟨px, py⟩
  · cases trailsEnabled <;> simp [List.filter] <;> norm_num
  · by_cases hd : ship.direction = ShipDirection.outbound <;>
      cases trailsEnabled <;> simp [hd, List.filter] <;> norm_num

/-- C3 witness: the wrap behavior at the concrete wrap ship. -/
theorem updateShip_wrap_witness :
    (updateShip 0 0 true none wrapShip).progress = 0 ∧
    (updateShip 0 0 true none wrapShip).trail.length = 1 :=
  updateShip_wrap_single_trail_point 0 0 true none wrapShip rfl rfl

/-- C3 counterexample: at the concrete wrap ship (progress 0.999,
speed 0.01), one update step does NOT leave an empty trail — the new
head point is recorded after the wrap clears it. -/
theorem updateShip_wrap_trail_counterexample :
    ¬((updateShip 0 0 true none wrapShip).progress = 0 ∧
      (updateShip 0 0 true none wrapShip).trail = []) := by
  intro h
  have h2 := h.2
  unfold updateShip at h2
  rw [if_pos (by norm_num [wrapShip] : (1 : ℝ) < wrapShip.progress + wrapShip.speed)] at h2
  norm_num [wrapShip, List.filter] at h2


/-- Membership in `createPlanetsAux`: every produced planet is
`mkPlanet` of some input record. -/
lemma mem_createPlanetsAux (rand : ℕ → ℝ) (n : ℕ) (minOrbit orbitStep : ℝ) (maxTx : ℕ)
    (centerX centerY : ℝ) :
    ∀ (ws : List WalletInteraction) (i : ℕ) (p : Planet),
      p ∈ createPlanetsAux rand n minOrbit orbitStep maxTx centerX centerY i ws →
      ∃ j w, w ∈ ws ∧ p = mkPlanet rand n minOrbit orbitStep maxTx centerX centerY j w
  | [], i, p, hp => by simp [createPlanetsAux] at hp
  | w :: ws, i, p, hp => by
    rcases List.mem_cons.1 hp with rfl | hp2
    · exact ⟨i, w, List.mem_cons_self w ws, rfl⟩
    · obtain ⟨j, w2, hw2, rfl⟩ :=
        mem_createPlanetsAux rand n minOrbit orbitStep maxTx centerX centerY ws (i + 1) p hp2
      exact ⟨j, w2, List.mem_cons_of_mem w hw2, rfl⟩

/-- Every member of a list is at most its running `Math.max`. -/
lemma le_maxTxOf : ∀ (l : List ℕ) (x : ℕ), x ∈ l → x ≤ maxTxOf l
  | a :: l, x, hx => by
    rcases List.mem_cons.1 hx with rfl | hx2
    · exact le_max_left _ _
    · exact le_trans (le_maxTxOf l x hx2) (le_max_right _ _)

/-- C10: every planet built by `createPlanets` has
size = 6 + 18·(txCount / max(maxTxCount, 1)), hence size in [6, 24];
the `maxTx || 1` guard makes the division well-defined even when every
record has txCount 0, in which case the size is exactly 6. -/
theorem planet_size_formula_and_bounds (rand : ℕ → ℝ)
    (interactions : List WalletInteraction) (centerX centerY width height : ℝ) (p : Planet)
    (hp : p ∈ createPlanets rand interactions centerX centerY width height) :
    p.size = 6 + 18 * ((p.interaction.txCount : ℝ) /
      ((max (maxTxOf (interactions.map (fun w => w.txCount))) 1 : ℕ) : ℝ)) ∧
    6 ≤ p.size ∧ p.size ≤ 24 ∧
    ((∀ w ∈ interactions, w.txCount = 0) → p.size = 6) := by
  unfold createPlanets at hp
  obtain ⟨j, w, hw, rfl⟩ := mem_createPlanetsAux _ _ _ _ _ _ _ _ _ _ hp
  set maxTx := maxTxOf (interactions.map (fun w => w.txCount)) with hmax
  have hsize : (mkPlanet rand interactions.length 100
      (if 1 < interactions.length then
        (min (height * 0.42) 500 - 100) / ((interactions.length : ℝ) - 1) else 0)
      maxTx centerX centerY j w).size =
      6 + ((w.txCount : ℝ) / (if maxTx = 0 then 1 else (maxTx : ℝ))) * 18 := rfl
  have hinter : (mkPlanet rand interactions.length 100
      (if 1 < interactions.length then
        (min (height * 0.42) 500 - 100) / ((interactions.length : ℝ) - 1) else 0)
      maxTx centerX centerY j w).interaction = w := rfl
  have hden : (if maxTx = 0 then (1 : ℝ) else (maxTx : ℝ)) = ((max maxTx 1 : ℕ) : ℝ) := by
    by_cases h0 : maxTx = 0
    · simp [h0]
    · have h1 : 1 ≤ maxTx := Nat.one_le_iff_ne_zero.2 h0
      rw [if_neg h0, Nat.max_eq_left h1]
  have hdenpos : (0 : ℝ) < ((max maxTx 1 : ℕ) : ℝ) := by
    have : 1 ≤ max maxTx 1 := le_max_right _ _
    exact_mod_cast lt_of_lt_of_le Nat.zero_lt_one (by exact_mod_cast this)
  have htx_le : (w.txCount : ℝ) ≤ ((max maxTx 1 : ℕ) : ℝ) := by
    have h1 : w.txCount ≤ maxTx :=
      le_maxTxOf _ _ (List.mem_map.2 ⟨w, hw, rfl⟩)
    exact_mod_cast le_trans h1 (le_max_left _ _)
  have hratio0 : (0 : ℝ) ≤ (w.txCount : ℝ) / ((max maxTx 1 : ℕ) : ℝ) :=
    div_nonneg (Nat.cast_nonneg _) (le_of_lt hdenpos)
  have hratio1 : (w.txCount : ℝ) / ((max maxTx 1 : ℕ) : ℝ) ≤ 1 :=
    (div_le_one hdenpos).2 htx_le
  rw [hsize, hinter, hden]
  refine ⟨by ring, by nlinarith, by nlinarith, ?_⟩
  intro hall
  have : w.txCount = 0 := hall w hw
  rw [this]
  norm_num

/-- C10 witness: with the single all-zero record, the built planet has
size exactly 6, inside [6, 24]. -/
theorem planet_size_bounds_witness :
    6 ≤ fixturePlanet.size ∧ fixturePlanet.size ≤ 24 ∧ fixturePlanet.size = 6 := by
  have hp : fixturePlanet ∈ createPlanets (fun _ => 0) [fixtureInteraction] 0 0 0 200 := by
    simp [fixturePlanet, fixtureInteraction, createPlanets, createPlanetsAux, maxTxOf]
  have h := planet_size_formula_and_bounds (fun _ => 0) [fixtureInteraction] 0 0 0 200
    fixturePlanet hp
  exact ⟨h.2.1, h.2.2.1, h.2.2.2 (by simp [fixtureInteraction])⟩

/-- C4 evaluation at the failing input: two planets, the first with two
outbound ships (sentCount 2) and the second with none. Both created
ships belong to the first planet (chain eth-mainnet, from
`senderInteraction`), yet after one `updateShips` step the second
ship\'s endpoints are the SECOND planet\'s position (30, 40), not its
source body\'s (10, 20): `reassociateShips` assigns planets round-robin
by direction rank, not by the creating body. -/
theorem updateShips_reassociation_mismatch :
    mismatchShips.map Ship.chain = ["eth-mainnet", "eth-mainnet"] ∧
    (updateShips mismatchShips [senderPlanet, quietPlanet] 0 0 true).map
      (fun s => (s.toX, s.toY)) = [((10 : ℝ), (20 : ℝ)), ((30 : ℝ), (40 : ℝ))] ∧
    ((30 : ℝ), (40 : ℝ)) ≠ (senderPlanet.x, senderPlanet.y) := by
  have hships : mismatchShips =
      [{ fromX := 0, fromY := 0, toX := 10, toY := 20, progress := 0
         speed := 0.003 + 0 * 0.004, color := "#ff9944", trail := []
         direction := ShipDirection.outbound, chain := "eth-mainnet", activationTime := 0 },
       { fromX := 0, fromY := 0, toX := 10, toY := 20, progress := 0
         speed := 0.003 + 0 * 0.004, color := "#ff9944", trail := []
         direction := ShipDirection.outbound, chain := "eth-mainnet", activationTime := 0 }] := by
    simp [mismatchShips, createShips, shipsForPlanet, senderPlanet, quietPlanet,
      senderInteraction, quietInteraction, shipActivationTime, List.range_succ]
  refine ⟨by rw [hships]; rfl, ?_, by simp [senderPlanet]⟩
  rw [hships]
  unfold updateShips reassociateShips
  simp only [List.mapIdx]
  norm_num [updateShip, reassociateShipsAux, senderPlanet, quietPlanet, apply_ite]


/-- The ring key of a built planet, in terms of its inputs. -/
lemma ringKey_mkPlanet (rand : ℕ → ℝ) (n : ℕ) (minOrbit orbitStep : ℝ) (maxTx : ℕ)
    (centerX centerY : ℝ) (i : ℕ) (w : WalletInteraction) :
    ringKey (mkPlanet rand n minOrbit orbitStep maxTx centerX centerY i w) =
      (round ((minOrbit + orbitStep * (i : ℝ)) * 10),
       round ((getChainPlane w.primaryChain).1 * 1000),
       round ((getChainPlane w.primaryChain).2 * 1000)) := rfl

/-- Numeric ring-key radius component at rank 0 (radius 100). -/
lemma round_rank0 : round (((100 : ℝ) + 160 * ((0 : ℕ) : ℝ)) * 10) = 1000 := by
  norm_num [round_eq]

/-- Numeric ring-key radius component at rank 1 (radius 260). -/
lemma round_rank1 : round (((100 : ℝ) + 160 * ((1 : ℕ) : ℝ)) * 10) = 2600 := by
  norm_num [round_eq]

/-- Numeric ring-key radius component at rank 2 (radius 420). -/
lemma round_rank2 : round (((100 : ℝ) + 160 * ((2 : ℕ) : ℝ)) * 10) = 4200 := by
  norm_num [round_eq]

/-- `createPlanets` on a three-record list at canvas height 1000:
minOrbit 100, maxOrbit min(420, 500) = 420, orbitStep 160. -/
lemma createPlanets_three (rand : ℕ → ℝ) (w1 w2 w3 : WalletInteraction)
    (centerX centerY width : ℝ) :
    createPlanets rand [w1, w2, w3] centerX centerY width 1000 =
      [mkPlanet rand 3 100 160 (maxTxOf [w1.txCount, w2.txCount, w3.txCount]) centerX centerY 0 w1,
       mkPlanet rand 3 100 160 (maxTxOf [w1.txCount, w2.txCount, w3.txCount]) centerX centerY 1 w2,
       mkPlanet rand 3 100 160 (maxTxOf [w1.txCount, w2.txCount, w3.txCount]) centerX centerY 2 w3] := by
  unfold createPlanets
  norm_num [maxTxOf, min_def, createPlanetsAux]

/-- `drawOrbits` on three planets with pairwise distinct ring keys and
no disabled chain draws exactly their three rings. -/
lemma drawOrbitsRingKeys_three (p0 p1 p2 : Planet)
    (h10 : ringKey p1 ≠ ringKey p0) (h20 : ringKey p2 ≠ ringKey p0)
    (h21 : ringKey p2 ≠ ringKey p1) :
    drawOrbitsRingKeys [p0, p1, p2] [] = [ringKey p0, ringKey p1, ringKey p2] := by
  simp [drawOrbitsRingKeys, drawOrbitsKeysAux, h10, h20, h21]


/-- Projection lemmas of `mkPlanet`. -/
lemma mkPlanet_orbitRadius (rand : ℕ → ℝ) (n : ℕ) (minOrbit orbitStep : ℝ) (maxTx : ℕ)
    (centerX centerY : ℝ) (i : ℕ) (w : WalletInteraction) :
    (mkPlanet rand n minOrbit orbitStep maxTx centerX centerY i w).orbitRadius =
      minOrbit + orbitStep * (i : ℝ) := rfl

/-- The built planet's plane is the chain's plane. -/
lemma mkPlanet_plane (rand : ℕ → ℝ) (n : ℕ) (minOrbit orbitStep : ℝ) (maxTx : ℕ)
    (centerX centerY : ℝ) (i : ℕ) (w : WalletInteraction) :
    ((mkPlanet rand n minOrbit orbitStep maxTx centerX centerY i w).planeTiltX,
     (mkPlanet rand n minOrbit orbitStep maxTx centerX centerY i w).planeTiltZ) =
      getChainPlane w.primaryChain := rfl

/-- `CHAIN_PLANES` at eth-mainnet: the flat plane. -/
lemma getChainPlane_eth : getChainPlane "eth-mainnet" = (0, 0) := rfl

/-- The computed ring facts for the three-record scenario (txCounts are
irrelevant to keys): rank-0 eth key (1000, 0, 0), rank-2 eth key
(4200, 0, 0), radii 100 < 260 < 420, shared plane for the eth pair, and
three distinct drawn rings. -/
lemma three_records_ring_facts (rand : ℕ → ℝ) (w1 w2 w3 : WalletInteraction)
    (centerX centerY width : ℝ)
    (hc1 : w1.primaryChain = "eth-mainnet") (hc2 : w2.primaryChain = "base-mainnet")
    (hc3 : w3.primaryChain = "eth-mainnet") :
    ((createPlanets rand [w1, w2, w3] centerX centerY width 1000).map ringKey).get? 0 =
      some (1000, 0, 0) ∧
    ((createPlanets rand [w1, w2, w3] centerX centerY width 1000).map ringKey).get? 2 =
      some (4200, 0, 0) ∧
    (createPlanets rand [w1, w2, w3] centerX centerY width 1000).map Planet.orbitRadius =
      [100, 260, 420] ∧
    ((createPlanets rand [w1, w2, w3] centerX centerY width 1000).map
        (fun p => (p.planeTiltX, p.planeTiltZ))).get? 0 =
      ((createPlanets rand [w1, w2, w3] centerX centerY width 1000).map
        (fun p => (p.planeTiltX, p.planeTiltZ))).get? 2 ∧
    (drawOrbitsRingKeys (createPlanets rand [w1, w2, w3] centerX centerY width 1000)
        []).length = 3 := by
  rw [createPlanets_three]
  set m := maxTxOf [w1.txCount, w2.txCount, w3.txCount] with hm
  have hk0 : ringKey (mkPlanet rand 3 100 160 m centerX centerY 0 w1) = (1000, 0, 0) := by
    rw [ringKey_mkPlanet, hc1, getChainPlane_eth]
    simp only [Prod.mk.injEq]
    refine ⟨round_rank0, ?_, ?_⟩ <;> norm_num [round_eq]
  have hk2 : ringKey (mkPlanet rand 3 100 160 m centerX centerY 2 w3) = (4200, 0, 0) := by
    rw [ringKey_mkPlanet, hc3, getChainPlane_eth]
    simp only [Prod.mk.injEq]
    refine ⟨round_rank2, ?_, ?_⟩ <;> norm_num [round_eq]
  have hk1fst : (ringKey (mkPlanet rand 3 100 160 m centerX centerY 1 w2)).1 = 2600 := by
    rw [ringKey_mkPlanet]
    exact round_rank1
  have h10 : ringKey (mkPlanet rand 3 100 160 m centerX centerY 1 w2) ≠
      ringKey (mkPlanet rand 3 100 160 m centerX centerY 0 w1) := by
    intro h
    have hfst := congrArg Prod.fst h
    rw [hk1fst, hk0] at hfst
    norm_num at hfst
  have h20 : ringKey (mkPlanet rand 3 100 160 m centerX centerY 2 w3) ≠
      ringKey (mkPlanet rand 3 100 160 m centerX centerY 0 w1) := by
    rw [hk0, hk2]
    norm_num [Prod.ext_iff]
  have h21 : ringKey (mkPlanet rand 3 100 160 m centerX centerY 2 w3) ≠
      ringKey (mkPlanet rand 3 100 160 m centerX centerY 1 w2) := by
    intro h
    have hfst := congrArg Prod.fst h
    rw [hk1fst, hk2] at hfst
    norm_num at hfst
  refine ⟨?_, ?_, ?_, ?_, ?_⟩
  · simp [List.get?, hk0]
  · simp [List.get?, hk2]
  · simp only [List.map_cons, List.map_nil, mkPlanet_orbitRadius]
    norm_num
  · simp only [List.map_cons, List.map_nil, List.get?]
    rw [show ((mkPlanet rand 3 100 160 m centerX centerY 0 w1).planeTiltX,
          (mkPlanet rand 3 100 160 m centerX centerY 0 w1).planeTiltZ) =
        getChainPlane w1.primaryChain from mkPlanet_plane rand 3 100 160 m centerX centerY 0 w1]
    rw [show ((mkPlanet rand 3 100 160 m centerX centerY 2 w3).planeTiltX,
          (mkPlanet rand 3 100 160 m centerX centerY 2 w3).planeTiltZ) =
        getChainPlane w3.primaryChain from mkPlanet_plane rand 3 100 160 m centerX centerY 2 w3]
    rw [hc1, hc3]
  · rw [drawOrbitsRingKeys_three _ _ _ h10 h20 h21]
    rfl

/-- C2 counterexample: at the concrete three records (txCounts
[10, 5, 1], chains [eth, base, eth], height 1000) the two eth-mainnet
bodies do NOT share a ring key — keys embed the rank-assigned radius —
and `drawOrbits` draws 3 distinct rings, not 2. -/
theorem ring_dedup_two_rings_counterexample :
    ((createPlanets (fun _ => 0) [ethRecBig, baseRecMid, ethRecSmall] 0 0 0 1000).map
        ringKey).get? 0 ≠
      ((createPlanets (fun _ => 0) [ethRecBig, baseRecMid, ethRecSmall] 0 0 0 1000).map
        ringKey).get? 2 ∧
    (drawOrbitsRingKeys (createPlanets (fun _ => 0) [ethRecBig, baseRecMid, ethRecSmall]
        0 0 0 1000) []).length ≠ 2 := by
  obtain ⟨h0, h2, _, _, hcount⟩ :=
    three_records_ring_facts (fun _ => 0) ethRecBig baseRecMid ethRecSmall 0 0 0 rfl rfl rfl
  refine ⟨?_, ?_⟩
  · rw [h0, h2]
    norm_num [Prod.ext_iff]
  · rw [hcount]
    norm_num

/-- C2 (amended): for three records with txCounts [10, 5, 1] and chain
ids [eth-mainnet, base-mainnet, eth-mainnet] (canvas height 1000), the
orbit radii strictly increase with input rank (100, 260, 420); the two
eth-mainnet bodies share the same orbital plane but distinct ring-dedup
keys, because the key embeds the rank-assigned radius; and drawing the
orbits produces exactly 3 distinct ring draws. -/
theorem three_records_radii_and_rings
    (rand : ℕ → ℝ) (w1 w2 w3 : WalletInteraction) (centerX centerY width : ℝ)
    (hc1 : w1.primaryChain = "eth-mainnet") (hc2 : w2.primaryChain = "base-mainnet")
    (hc3 : w3.primaryChain = "eth-mainnet")
    (ht1 : w1.txCount = 10) (ht2 : w2.txCount = 5) (ht3 : w3.txCount = 1) :
    List.Chain' (fun a b => a < b)
      ((createPlanets rand [w1, w2, w3] centerX centerY width 1000).map
        Planet.orbitRadius) ∧
    ((createPlanets rand [w1, w2, w3] centerX centerY width 1000).map
        (fun p => (p.planeTiltX, p.planeTiltZ))).get? 0 =
      ((createPlanets rand [w1, w2, w3] centerX centerY width 1000).map
        (fun p => (p.planeTiltX, p.planeTiltZ))).get? 2 ∧
    ((createPlanets rand [w1, w2, w3] centerX centerY width 1000).map ringKey).get? 0 ≠
      ((createPlanets rand [w1, w2, w3] centerX centerY width 1000).map ringKey).get? 2 ∧
    (drawOrbitsRingKeys (createPlanets rand [w1, w2, w3] centerX centerY width 1000)
        []).length = 3 := by
  obtain ⟨h0, h2, hradii, hplane, hcount⟩ :=
    three_records_ring_facts rand w1 w2 w3 centerX centerY width hc1 hc2 hc3
  refine ⟨?_, hplane, ?_, hcount⟩
  · rw [hradii]
    norm_num
  · rw [h0, h2]
    norm_num [Prod.ext_iff]

/-- C2 witness: the amended statement at the concrete records. -/
theorem three_records_radii_and_rings_witness :
    List.Chain' (fun a b => a < b)
      ((createPlanets (fun _ => 0) [ethRecBig, baseRecMid, ethRecSmall] 0 0 0 1000).map
        Planet.orbitRadius) ∧
    ((createPlanets (fun _ => 0) [ethRecBig, baseRecMid, ethRecSmall] 0 0 0 1000).map
        (fun p => (p.planeTiltX, p.planeTiltZ))).get? 0 =
      ((createPlanets (fun _ => 0) [ethRecBig, baseRecMid, ethRecSmall] 0 0 0 1000).map
        (fun p => (p.planeTiltX, p.planeTiltZ))).get? 2 ∧
    ((createPlanets (fun _ => 0) [ethRecBig, baseRecMid, ethRecSmall] 0 0 0 1000).map
        ringKey).get? 0 ≠
      ((createPlanets (fun _ => 0) [ethRecBig, baseRecMid, ethRecSmall] 0 0 0 1000).map
        ringKey).get? 2 ∧
    (drawOrbitsRingKeys (createPlanets (fun _ => 0) [ethRecBig, baseRecMid, ethRecSmall]
        0 0 0 1000) []).length = 3 :=
  three_records_radii_and_rings (fun _ => 0) ethRecBig baseRecMid ethRecSmall 0 0 0
    rfl rfl rfl rfl rfl rfl


/-- Pass 1 of the hit test computes exactly the last enabled body within
`size + 12` of the pointer, falling back to the incoming accumulator. -/
lemma hitTestBodiesAux_eq_lastHit (disabledChains : List String) (wx wy : ℝ) :
    ∀ (l : List Planet) (found : Option Planet),
      hitTestBodiesAux disabledChains wx wy l found =
        match lastEnabledBodyHit disabledChains wx wy l with
        | some q => some q
        | none => found
  | [], found => rfl
  | p :: ps, found => by
    unfold hitTestBodiesAux lastEnabledBodyHit
    by_cases hdis : p.interaction.primaryChain ∈ disabledChains
    · rw [if_pos hdis, hitTestBodiesAux_eq_lastHit disabledChains wx wy ps found]
      cases hlast : lastEnabledBodyHit disabledChains wx wy ps with
      | some q => rfl
      | none =>
        rw [if_neg (by intro hcond; exact hcond.1 hdis)]
    · rw [if_neg hdis]
      by_cases hclose : hitDist wx wy p.x p.y < p.size + 12
      · rw [if_pos hclose, hitTestBodiesAux_eq_lastHit disabledChains wx wy ps (some p)]
        cases hlast : lastEnabledBodyHit disabledChains wx wy ps with
        | some q => rfl
        | none => rw [if_pos ⟨hdis, hclose⟩]
      · rw [if_neg hclose, hitTestBodiesAux_eq_lastHit disabledChains wx wy ps found]
        cases hlast : lastEnabledBodyHit disabledChains wx wy ps with
        | some q => rfl
        | none => rw [if_neg (by intro hcond; exact hclose hcond.2)]

/-- Pass 1 only ever returns enabled planets (given an accumulator that
satisfies the same). -/
lemma hitTestBodiesAux_enabled (disabledChains : List String) (wx wy : ℝ) :
    ∀ (l : List Planet) (found : Option Planet),
      (∀ q, found = some q → q.interaction.primaryChain ∉ disabledChains) →
      ∀ p, hitTestBodiesAux disabledChains wx wy l found = some p →
        p.interaction.primaryChain ∉ disabledChains
  | [], _, hinv, p, hp => hinv p hp
  | q :: ps, found, hinv, p, hp => by
    unfold hitTestBodiesAux at hp
    by_cases hdis : q.interaction.primaryChain ∈ disabledChains
    · rw [if_pos hdis] at hp
      exact hitTestBodiesAux_enabled disabledChains wx wy ps found hinv p hp
    · rw [if_neg hdis] at hp
      by_cases hclose : hitDist wx wy q.x q.y < q.size + 12
      · rw [if_pos hclose] at hp
        refine hitTestBodiesAux_enabled disabledChains wx wy ps (some q) ?_ p hp
        intro r hr
        cases hr
        exact hdis
      · rw [if_neg hclose] at hp
        exact hitTestBodiesAux_enabled disabledChains wx wy ps found hinv p hp

/-- A fold whose step either keeps the found planet or records one
satisfying `P` preserves `P` of the found planet. -/
lemma foldl_snd_preserves {α β : Type} (P : β → Prop)
    (step : (EReal × Option β) → α → (EReal × Option β))
    (hstep : ∀ acc a q, (step acc a).2 = some q → acc.2 = some q ∨ P q) :
    ∀ (l : List α) (acc : EReal × Option β),
      (∀ q, acc.2 = some q → P q) →
      ∀ q, (l.foldl step acc).2 = some q → P q
  | [], _, hinv, q, hq => hinv q hq
  | a :: l, acc, hinv, q, hq => by
    rw [List.foldl_cons] at hq
    refine foldl_snd_preserves P step hstep l (step acc a) ?_ q hq
    intro r hr
    rcases hstep acc a r hr with h | h
    · exact hinv r h
    · exact h

/-- The 60-sample scan of one enabled ring only ever records that
planet. -/
lemma ringScanPlanet_enabled (disabledChains : List String)
    (wx wy orbitThreshold centerX centerY : ℝ) (camera : Camera) (p : Planet)
    (hp : p.interaction.primaryChain ∉ disabledChains) :
    ∀ (acc : EReal × Option Planet),
      (∀ q, acc.2 = some q → q.interaction.primaryChain ∉ disabledChains) →
      ∀ q, (ringScanPlanet wx wy orbitThreshold centerX centerY camera p acc).2 = some q →
        q.interaction.primaryChain ∉ disabledChains := by
  intro acc hinv q hq
  unfold ringScanPlanet at hq
  refine foldl_snd_preserves (fun r => r.interaction.primaryChain ∉ disabledChains)
    _ ?_ (List.range 60) acc hinv q hq
  intro acc2 a r hr
  dsimp only at hr
  split at hr
  · right
    cases hr
    exact hp
  · left
    exact hr

/-- Pass 2 only ever returns enabled planets. -/
lemma hitTestRingsAux_enabled (disabledChains : List String)
    (wx wy orbitThreshold centerX centerY : ℝ) (camera : Camera) :
    ∀ (l : List Planet) (acc : EReal × Option Planet),
      (∀ q, acc.2 = some q → q.interaction.primaryChain ∉ disabledChains) →
      ∀ p, hitTestRingsAux disabledChains wx wy orbitThreshold centerX centerY camera l acc =
          some p →
        p.interaction.primaryChain ∉ disabledChains
  | [], acc, hinv, p, hp => hinv p hp
  | q :: ps, acc, hinv, p, hp => by
    unfold hitTestRingsAux at hp
    by_cases hdis : q.interaction.primaryChain ∈ disabledChains
    · rw [if_pos hdis] at hp
      exact hitTestRingsAux_enabled disabledChains wx wy orbitThreshold centerX centerY
        camera ps acc hinv p hp
    · rw [if_neg hdis] at hp
      exact hitTestRingsAux_enabled disabledChains wx wy orbitThreshold centerX centerY
        camera ps _
        (ringScanPlanet_enabled disabledChains wx wy orbitThreshold centerX centerY camera
          q hdis acc hinv) p hp

/-- C7: the per-frame hit test resolves exactly as specified — the
pointer is un-zoomed, the winner of the body pass is the LAST enabled
body whose projected position is within `size + 12` of the un-zoomed
pointer, and only when no body matches are the enabled rings sampled
(60 points each, threshold `10 / zoom`, closest sample wins); and every
returned planet is on an enabled chain, so a pointer over a disabled
body's position never hovers that body. -/
theorem hitTest_precedence_and_disabled
    (planets : List Planet) (disabledChains : List String)
    (centerX centerY zoom mouseX mouseY : ℝ) (camera : Camera) :
    hitTest planets disabledChains centerX centerY zoom mouseX mouseY camera =
      (match lastEnabledBodyHit disabledChains
          (screenToWorld centerX centerY zoom mouseX mouseY).1
          (screenToWorld centerX centerY zoom mouseX mouseY).2 planets with
        | some p => some p
        | none =>
          hitTestRingsAux disabledChains
            (screenToWorld centerX centerY zoom mouseX mouseY).1
            (screenToWorld centerX centerY zoom mouseX mouseY).2
            (10 / zoom) centerX centerY camera planets (⊤, none)) ∧
    ∀ p, hitTest planets disabledChains centerX centerY zoom mouseX mouseY camera = some p →
      p.interaction.primaryChain ∉ disabledChains := by
  constructor
  · simp only [hitTest]
    rw [hitTestBodiesAux_eq_lastHit]
    cases lastEnabledBodyHit disabledChains
        (screenToWorld centerX centerY zoom mouseX mouseY).1
        (screenToWorld centerX centerY zoom mouseX mouseY).2 planets with
    | some q => rfl
    | none => rfl
  · intro p hp
    simp only [hitTest] at hp
    cases hbp : hitTestBodiesAux disabledChains
        (screenToWorld centerX centerY zoom mouseX mouseY).1
        (screenToWorld centerX centerY zoom mouseX mouseY).2 planets none with
    | some q =>
      rw [hbp] at hp
      cases hp
      exact hitTestBodiesAux_enabled _ _ _ planets none (by intro r hr; cases hr) p hbp
    | none =>
      rw [hbp] at hp
      exact hitTestRingsAux_enabled _ _ _ _ _ _ _ planets (⊤, none)
        (by intro r hr; cases hr) p hp

end
